import Mathlib

/-!
Verification of the rate cache, spread engine and conversion dialogue of
src/main.py (a currency-quoting bot).  Numbers the Python code holds in
64-bit floats are embedded as exact rationals (so the literals 0.96, 1.04
and 0.5 become 96/100, 104/100 and 1/2); the IEEE special values that the
Python float type adds are modelled explicitly by the type `PFloat`.
Time is measured in minutes, matching timedelta(minutes=20).
-/

/-- Value of a Python float as the bot manipulates them: an exact rational
or one of the special values NaN, +infinity, -infinity. -/
inductive PFloat
  | num (q : ℚ)
  | nan
  | inf
  | ninf
  deriving DecidableEq

/-- Python `x <= 0` on a float: False for NaN and +infinity, True for
-infinity, the rational comparison otherwise. -/
def pleZero : PFloat → Bool
  | PFloat.num q => decide (q ≤ 0)
  | PFloat.nan => false
  | PFloat.inf => false
  | PFloat.ninf => true

/-- Python multiplication of a float by a finite rate (`amount * rate`). -/
def pmulQ : PFloat → ℚ → PFloat
  | PFloat.num q, r => PFloat.num (q * r)
  | PFloat.nan, _ => PFloat.nan
  | PFloat.inf, r => if 0 < r then PFloat.inf else if r < 0 then PFloat.ninf else PFloat.nan
  | PFloat.ninf, r => if 0 < r then PFloat.ninf else if r < 0 then PFloat.inf else PFloat.nan

/-- Python division of a float by a finite nonzero rate (`amount / rate`);
the callers guard the rate against zero before dividing. -/
def pdivQ : PFloat → ℚ → PFloat
  | PFloat.num q, r => PFloat.num (q / r)
  | PFloat.nan, _ => PFloat.nan
  | PFloat.inf, r => if 0 < r then PFloat.inf else if r < 0 then PFloat.ninf else PFloat.nan
  | PFloat.ninf, r => if 0 < r then PFloat.ninf else if r < 0 then PFloat.inf else PFloat.nan

/-- Python round(x) with no second argument on an exact value:
round half to even (banker's rounding). -/
def pyRound (q : ℚ) : ℤ :=
  if q - ⌊q⌋ < 1/2 then ⌊q⌋
  else if 1/2 < q - ⌊q⌋ then ⌊q⌋ + 1
  else if ⌊q⌋ % 2 = 0 then ⌊q⌋ else ⌊q⌋ + 1

/-- Outcome of Python int(round(x)) on a float: round raises ValueError on
NaN and OverflowError on an infinity. -/
inductive RenderResult
  | ok (n : ℤ)
  | valueError
  | overflowError
  deriving DecidableEq

/-- Python int(round(x)) as used on line 297-299 of src/main.py. -/
def pyIntRound : PFloat → RenderResult
  | PFloat.num q => RenderResult.ok (pyRound q)
  | PFloat.nan => RenderResult.valueError
  | PFloat.inf => RenderResult.overflowError
  | PFloat.ninf => RenderResult.overflowError

/-- Digit string to its numeric value. -/
def digitsVal (l : List Char) : ℕ :=
  l.foldl (fun a c => a * 10 + (c.toNat - 48)) 0

/-- Every character is a decimal digit. -/
def allDigits (l : List Char) : Bool :=
  l.all Char.isDigit

/-- Syntactic content of a decimal float literal: sign, integer-part value,
fraction-part value, number of fraction digits, exponent. -/
structure DecTok where
  neg : Bool
  ip : ℕ
  fp : ℕ
  fplen : ℕ
  ex : ℤ
  deriving DecidableEq

/-- Token produced by scanning a Python float literal. -/
inductive NumTok
  | dec (t : DecTok)
  | nan
  | inf (neg : Bool)
  deriving DecidableEq

/-- Exponent part after the leading letter e has been consumed. -/
def scanExpBody (l : List Char) : Option ℤ :=
  match l with
  | '+' :: ds => if !ds.isEmpty && allDigits ds then some (digitsVal ds) else none
  | '-' :: ds => if !ds.isEmpty && allDigits ds then some (-(digitsVal ds : ℤ)) else none
  | ds => if !ds.isEmpty && allDigits ds then some (digitsVal ds) else none

/-- Optional exponent suffix of a float literal (input already lower-cased). -/
def scanExp : List Char → Option ℤ
  | [] => some 0
  | 'e' :: rest => scanExpBody rest
  | _ => none

/-- Mantissa of a float literal: digits with an optional dot, at least one
digit overall, as in CPython (so "1.", ".5" are accepted, "" and "." are not). -/
def scanMantissa (l : List Char) : Option (ℕ × ℕ × ℕ) :=
  let ip := l.takeWhile (fun c => c ≠ '.')
  match l.dropWhile (fun c => c ≠ '.') with
  | [] => if !ip.isEmpty && allDigits ip then some (digitsVal ip, 0, 0) else none
  | _ :: fp =>
    if (!ip.isEmpty || !fp.isEmpty) && allDigits ip && allDigits fp then
      some (digitsVal ip, digitsVal fp, fp.length)
    else none

/-- Scanner for the argument of the CPython builtin float(str), restricted to
the grammar reachable here: optional sign, then either decimal digits with an
optional dot and an optional exponent, or one of the case-insensitive special
literals nan, inf, infinity.  Whitespace has been stripped by the caller. -/
def pyScan (s : String) : Option NumTok :=
  let cs := s.data.map Char.toLower
  let sgn :=
    match cs with
    | '+' :: t => (false, t)
    | '-' :: t => (true, t)
    | t => (false, t)
  let neg := sgn.1
  let body := sgn.2
  if body = ['i', 'n', 'f'] ∨ body = ['i', 'n', 'f', 'i', 'n', 'i', 't', 'y'] then
    some (NumTok.inf neg)
  else if body = ['n', 'a', 'n'] then
    some NumTok.nan
  else
    let mant := body.takeWhile (fun c => c ≠ 'e')
    let rest := body.dropWhile (fun c => c ≠ 'e')
    match scanMantissa mant, scanExp rest with
    | some (ip, fp, fplen), some ex => some (NumTok.dec ⟨neg, ip, fp, fplen, ex⟩)
    | _, _ => none

/-- Numeric value of a parsed decimal literal, as an exact rational. -/
def DecTok.val (t : DecTok) : ℚ :=
  (if t.neg then -1 else 1) * ((t.ip : ℚ) + (t.fp : ℚ) / 10 ^ t.fplen) * 10 ^ t.ex

/-- Float denoted by a scanned token. -/
def tokFloat : NumTok → PFloat
  | NumTok.dec t => PFloat.num t.val
  | NumTok.nan => PFloat.nan
  | NumTok.inf false => PFloat.inf
  | NumTok.inf true => PFloat.ninf

/-- CPython float(str) on a stripped string. -/
def pyFloat (s : String) : Option PFloat :=
  (pyScan s).map tokFloat

/-- Python str.strip(): drop leading and trailing whitespace. -/
def pyStrip (s : String) : String :=
  String.mk (((s.data.dropWhile Char.isWhitespace).reverse.dropWhile Char.isWhitespace).reverse)

/-- Python text.replace of every comma by a dot, as the amount handlers do. -/
def pyReplaceCommaDot (s : String) : String :=
  String.mk (s.data.map (fun c => if c = ',' then '.' else c))

/-- cache_duration = timedelta(minutes=20); time is measured in minutes. -/
def cacheDuration : ℚ := 20

/-- RateCache of src/main.py lines 30-52: one optional stored snapshot (the
pair rub_per_usd, kzt_per_usd) and the time it was stored. -/
structure RateCache where
  cache : Option (ℚ × ℚ)
  cache_time : Option ℚ
  deriving DecidableEq

/-- RateCache.is_valid: False when either field is None, otherwise
now - cache_time < cache_duration. -/
def RateCache.is_valid (c : RateCache) (now : ℚ) : Bool :=
  match c.cache, c.cache_time with
  | none, _ => false
  | _, none => false
  | some _, some t => decide (now - t < cacheDuration)

/-- RateCache.get: the stored data if the cache is valid, else None. -/
def RateCache.get (c : RateCache) (now : ℚ) : Option (ℚ × ℚ) :=
  if c.is_valid now then c.cache else none

/-- RateCache.set: unconditionally replace both fields. -/
def RateCache.set (_c : RateCache) (data : ℚ × ℚ) (now : ℚ) : RateCache :=
  { cache := some data, cache_time := some now }

/-- The module-level dict calculated_rates (src/main.py lines 57-60). -/
structure CalcRates where
  rub_to_kzt : Option ℚ
  kzt_to_rub : Option ℚ
  deriving DecidableEq

/-- The process-global mutable state the handlers share: the rate cache and
the calculated_rates dict. -/
structure GlobalState where
  rate_cache : RateCache
  calculated_rates : CalcRates
  deriving DecidableEq

/-- base_rate = kzt_per_usd / rub_per_usd (src/main.py line 172). -/
def base_rate (rub_per_usd kzt_per_usd : ℚ) : ℚ :=
  kzt_per_usd / rub_per_usd

/-- rate_rub_to_kzt = base_rate * 0.96 (src/main.py line 175). -/
def rate_rub_to_kzt (rub_per_usd kzt_per_usd : ℚ) : ℚ :=
  base_rate rub_per_usd kzt_per_usd * (96/100)

/-- rate_kzt_to_rub = base_rate * 1.04 (src/main.py line 178; note the
docstring on line 166 announces 1 / base_rate * 1.04 instead). -/
def rate_kzt_to_rub (rub_per_usd kzt_per_usd : ℚ) : ℚ :=
  base_rate rub_per_usd kzt_per_usd * (104/100)

/-- Class of a Python exception as the amount handlers discriminate them:
their first except clause catches ValueError (and its subclasses, such as
json.JSONDecodeError) and the second catches every other Exception. -/
inductive PyErrKind
  | valueError
  | otherError
  deriving DecidableEq

/-- Outcome the environment supplies for one upstream fetch attempt inside
get_market_rates: the market pair on success, or the class of the raise.
A raise that is a ValueError: the explicit raise for a missing
OPENEXCHANGE_API_KEY (line 133), a json() body that fails to decode
(json.JSONDecodeError subclasses ValueError), and the explicit raise for a
response without a rates field (line 146).  A raise that is not a
ValueError: a transport error or timeout from requests.get (line 141), or a
rates dict lacking the RUB or KZT key (KeyError, lines 148-149).  All these
raise before the cache is written (line 152). -/
inductive FetchResult
  | ok (rates : ℚ × ℚ)
  | valueError
  | otherError
  deriving DecidableEq

/-- get_market_rates (src/main.py lines 121-157).  Besides returning the
market pair it may update the cache; a raise is an Except.error carrying the
exception class and the state as mutated so far (for a fetch raise the cache
is untouched, since every raise site precedes the set on line 152). -/
def get_market_rates (st : GlobalState) (now : ℚ) (fetch : FetchResult) :
    Except (PyErrKind × GlobalState) ((ℚ × ℚ) × GlobalState) :=
  match st.rate_cache.get now with
  | some d => Except.ok (d, st)
  | none =>
    match fetch with
    | FetchResult.valueError => Except.error (PyErrKind.valueError, st)
    | FetchResult.otherError => Except.error (PyErrKind.otherError, st)
    | FetchResult.ok d =>
      Except.ok (d, { st with rate_cache := st.rate_cache.set d now })

/-- calculate_rates (src/main.py lines 160-184): derive both client rates
from the market rates and store them in the calculated_rates globals.
A zero rub_per_usd raises ZeroDivisionError (not a ValueError) at the
base_rate division, after the cache was already written. -/
def calculate_rates (st : GlobalState) (now : ℚ) (fetch : FetchResult) :
    Except (PyErrKind × GlobalState) ((ℚ × ℚ) × GlobalState) :=
  match get_market_rates st now fetch with
  | Except.error e => Except.error e
  | Except.ok ((rub_per_usd, kzt_per_usd), st') =>
    if rub_per_usd = 0 then Except.error (PyErrKind.otherError, st')
    else
      let f := rate_rub_to_kzt rub_per_usd kzt_per_usd
      let i := rate_kzt_to_rub rub_per_usd kzt_per_usd
      Except.ok ((f, i), { st' with calculated_rates := ⟨some f, some i⟩ })

/-- Aiogram FSM state of one user's session (ExchangeStates; idle is the
cleared state). -/
inductive SessionState
  | idle
  | rub_to_kzt_waiting_rub
  | rub_to_kzt_waiting_kzt
  | kzt_to_rub_waiting_kzt
  | kzt_to_rub_waiting_rub
  deriving DecidableEq

/-- What an amount handler answers to the user: the empty-input retry
prompt; the message of the except-ValueError clause (reached on unparseable
input, but equally by any other ValueError raised inside the try block —
from calculate_rates or from rendering a NaN — and never clearing the
session); the non-positive retry prompt; a completed quote showing two
whole-unit numbers in the order they appear in the message text; or the
generic error message of the except-Exception clause, which clears the
session. -/
inductive Outcome
  | promptEmpty
  | promptInvalid
  | promptNonPositive
  | completed (shown1 shown2 : ℤ)
  | errorCleared
  deriving DecidableEq

/-- Lines 290-292: rate = calculated_rates.get('rub_to_kzt'); if not rate
(None or 0.0): rate, _ = calculate_rates().  A raise propagates with its
exception class. -/
def resolve_rub_to_kzt (st : GlobalState) (now : ℚ) (fetch : FetchResult) :
    Except (PyErrKind × GlobalState) (ℚ × GlobalState) :=
  match st.calculated_rates.rub_to_kzt with
  | some r =>
    if r = 0 then
      match calculate_rates st now fetch with
      | Except.error e => Except.error e
      | Except.ok ((f, _), st') => Except.ok (f, st')
    else Except.ok (r, st)
  | none =>
    match calculate_rates st now fetch with
    | Except.error e => Except.error e
    | Except.ok ((f, _), st') => Except.ok (f, st')

/-- Lines 422-424: rate = calculated_rates.get('kzt_to_rub'); if not rate:
_, rate = calculate_rates(). -/
def resolve_kzt_to_rub (st : GlobalState) (now : ℚ) (fetch : FetchResult) :
    Except (PyErrKind × GlobalState) (ℚ × GlobalState) :=
  match st.calculated_rates.kzt_to_rub with
  | some r =>
    if r = 0 then
      match calculate_rates st now fetch with
      | Except.error e => Except.error e
      | Except.ok ((_, i), st') => Except.ok (i, st')
    else Except.ok (r, st)
  | none =>
    match calculate_rates st now fetch with
    | Except.error e => Except.error e
    | Except.ok ((_, i), st') => Except.ok (i, st')

/-- rub_to_kzt_amount_rub_handler (src/main.py lines 277-309): the user sent
the source amount in rubles; answer amount * rate tenge.  The result is the
rendered outcome, the global state after the call, and the session state
(idle after state.clear(), unchanged on a retry prompt).  text none models a
message without text.  A ValueError raised anywhere in the try block — by
float(), by the recompute inside calculate_rates, or by int(round(NaN)) — is
caught by the except-ValueError clause on line 305, which re-prompts without
clearing the session; every other raise falls to the except-Exception clause
on line 307, which clears it. -/
def rub_to_kzt_amount_rub_handler (st : GlobalState) (now : ℚ)
    (fetch : FetchResult) (text : Option String) :
    Outcome × GlobalState × SessionState :=
  match text with
  | none => (Outcome.promptEmpty, st, SessionState.rub_to_kzt_waiting_rub)
  | some t =>
    if pyStrip t = "" then (Outcome.promptEmpty, st, SessionState.rub_to_kzt_waiting_rub)
    else
      match pyFloat (pyStrip (pyReplaceCommaDot t)) with
      | none => (Outcome.promptInvalid, st, SessionState.rub_to_kzt_waiting_rub)
      | some amount_rub =>
        if pleZero amount_rub then
          (Outcome.promptNonPositive, st, SessionState.rub_to_kzt_waiting_rub)
        else
          match resolve_rub_to_kzt st now fetch with
          | Except.error (PyErrKind.valueError, st') =>
            (Outcome.promptInvalid, st', SessionState.rub_to_kzt_waiting_rub)
          | Except.error (PyErrKind.otherError, st') =>
            (Outcome.errorCleared, st', SessionState.idle)
          | Except.ok (rate, st') =>
            let result_kzt := pmulQ amount_rub rate
            match pyIntRound amount_rub with
            | RenderResult.valueError =>
              (Outcome.promptInvalid, st', SessionState.rub_to_kzt_waiting_rub)
            | RenderResult.overflowError => (Outcome.errorCleared, st', SessionState.idle)
            | RenderResult.ok shown_amount =>
              match pyIntRound result_kzt with
              | RenderResult.valueError =>
                (Outcome.promptInvalid, st', SessionState.rub_to_kzt_waiting_rub)
              | RenderResult.overflowError => (Outcome.errorCleared, st', SessionState.idle)
              | RenderResult.ok shown_result =>
                (Outcome.completed shown_amount shown_result, st', SessionState.idle)

/-- rub_to_kzt_amount_kzt_handler (src/main.py lines 312-343): the user sent
the desired destination amount in tenge; answer required_rub = desired / rate.
Python raises ZeroDivisionError when the freshly recomputed rate is 0.0.
The message shows required_rub first, then desired_kzt.  As in the sibling
handler, a ValueError from the recompute is caught by the except-ValueError
clause on line 339 (re-prompt, session kept); other raises clear the session. -/
def rub_to_kzt_amount_kzt_handler (st : GlobalState) (now : ℚ)
    (fetch : FetchResult) (text : Option String) :
    Outcome × GlobalState × SessionState :=
  match text with
  | none => (Outcome.promptEmpty, st, SessionState.rub_to_kzt_waiting_kzt)
  | some t =>
    if pyStrip t = "" then (Outcome.promptEmpty, st, SessionState.rub_to_kzt_waiting_kzt)
    else
      match pyFloat (pyStrip (pyReplaceCommaDot t)) with
      | none => (Outcome.promptInvalid, st, SessionState.rub_to_kzt_waiting_kzt)
      | some desired_kzt =>
        if pleZero desired_kzt then
          (Outcome.promptNonPositive, st, SessionState.rub_to_kzt_waiting_kzt)
        else
          match resolve_rub_to_kzt st now fetch with
          | Except.error (PyErrKind.valueError, st') =>
            (Outcome.promptInvalid, st', SessionState.rub_to_kzt_waiting_kzt)
          | Except.error (PyErrKind.otherError, st') =>
            (Outcome.errorCleared, st', SessionState.idle)
          | Except.ok (rate, st') =>
            if rate = 0 then (Outcome.errorCleared, st', SessionState.idle)
            else
              let required_rub := pdivQ desired_kzt rate
              match pyIntRound required_rub with
              | RenderResult.valueError =>
                (Outcome.promptInvalid, st', SessionState.rub_to_kzt_waiting_kzt)
              | RenderResult.overflowError => (Outcome.errorCleared, st', SessionState.idle)
              | RenderResult.ok shown_required =>
                match pyIntRound desired_kzt with
                | RenderResult.valueError =>
                  (Outcome.promptInvalid, st', SessionState.rub_to_kzt_waiting_kzt)
                | RenderResult.overflowError => (Outcome.errorCleared, st', SessionState.idle)
                | RenderResult.ok shown_desired =>
                  (Outcome.completed shown_required shown_desired, st', SessionState.idle)

/-- kzt_to_rub_amount_kzt_handler (src/main.py lines 409-440): the user sent
the source amount in tenge; answer amount * rate rubles, with the
kzt_to_rub rate.  A ValueError from the recompute is caught by the
except-ValueError clause on line 436 (re-prompt, session kept); other raises
fall to line 438 and clear the session. -/
def kzt_to_rub_amount_kzt_handler (st : GlobalState) (now : ℚ)
    (fetch : FetchResult) (text : Option String) :
    Outcome × GlobalState × SessionState :=
  match text with
  | none => (Outcome.promptEmpty, st, SessionState.kzt_to_rub_waiting_kzt)
  | some t =>
    if pyStrip t = "" then (Outcome.promptEmpty, st, SessionState.kzt_to_rub_waiting_kzt)
    else
      match pyFloat (pyStrip (pyReplaceCommaDot t)) with
      | none => (Outcome.promptInvalid, st, SessionState.kzt_to_rub_waiting_kzt)
      | some amount_kzt =>
        if pleZero amount_kzt then
          (Outcome.promptNonPositive, st, SessionState.kzt_to_rub_waiting_kzt)
        else
          match resolve_kzt_to_rub st now fetch with
          | Except.error (PyErrKind.valueError, st') =>
            (Outcome.promptInvalid, st', SessionState.kzt_to_rub_waiting_kzt)
          | Except.error (PyErrKind.otherError, st') =>
            (Outcome.errorCleared, st', SessionState.idle)
          | Except.ok (rate, st') =>
            let result_rub := pmulQ amount_kzt rate
            match pyIntRound amount_kzt with
            | RenderResult.valueError =>
              (Outcome.promptInvalid, st', SessionState.kzt_to_rub_waiting_kzt)
            | RenderResult.overflowError => (Outcome.errorCleared, st', SessionState.idle)
            | RenderResult.ok shown_amount =>
              match pyIntRound result_rub with
              | RenderResult.valueError =>
                (Outcome.promptInvalid, st', SessionState.kzt_to_rub_waiting_kzt)
              | RenderResult.overflowError => (Outcome.errorCleared, st', SessionState.idle)
              | RenderResult.ok shown_result =>
                (Outcome.completed shown_amount shown_result, st', SessionState.idle)

/-- request_rate_handler (src/main.py lines 207-243) restricted to its effect
on the shared global state: it calls calculate_rates inside a single
except-Exception clause (line 241), so every raise is reported as a chat
message, leaving the state as mutated at the point of the raise. -/
def request_rate_handler (st : GlobalState) (now : ℚ) (fetch : FetchResult) :
    GlobalState :=
  match calculate_rates st now fetch with
  | Except.error (_, st') => st'
  | Except.ok (_, st') => st'

/-- Modelled from the spec's words only (for comparison with pyRound, the
rounding the code performs): standard half-up rounding, a fractional part of
exactly one half rounds away from zero. -/
def specHalfUp (q : ℚ) : ℤ :=
  if 0 ≤ q then ⌊q + 1/2⌋ else -⌊-q + 1/2⌋

/-- The empty initial global state: nothing cached, no calculated rates. -/
def stInit : GlobalState :=
  ⟨⟨none, none⟩, ⟨none, none⟩⟩

/-- Global state as it stands after rates were derived from the market
snapshot rub_per_usd = 90, kzt_per_usd = 450: the client rates are
4.8 = 24/5 and 5.2 = 26/5. -/
def stLocked : GlobalState :=
  ⟨⟨none, none⟩, ⟨some (24/5), some (26/5)⟩⟩

/-- Global state after one rate request against market snapshot (96, 100):
the base cross rate is 25/24 and the client RUB to KZT rate is exactly 1. -/
def stUnit : GlobalState :=
  ⟨⟨some (96, 100), some 0⟩, ⟨some 1, some (13/12)⟩⟩

theorem pyScan_1000 : pyScan "1000" = some (NumTok.dec ⟨false, 1000, 0, 0, 0⟩) := by
  decide

theorem pyScan_4800 : pyScan "4800" = some (NumTok.dec ⟨false, 4800, 0, 0, 0⟩) := by
  decide

theorem pyFloat_1000 : pyFloat (pyStrip (pyReplaceCommaDot "1000")) = some (PFloat.num 1000) := by
  have h : pyScan "1000" = some (NumTok.dec ⟨false, 1000, 0, 0, 0⟩) := by decide
  have h1 : pyStrip (pyReplaceCommaDot "1000") = "1000" := by decide
  rw [h1]
  simp [pyFloat, h, tokFloat, DecTok.val]

theorem pyFloat_4800 : pyFloat (pyStrip (pyReplaceCommaDot "4800")) = some (PFloat.num 4800) := by
  have h : pyScan "4800" = some (NumTok.dec ⟨false, 4800, 0, 0, 0⟩) := by decide
  have h1 : pyStrip (pyReplaceCommaDot "4800") = "4800" := by decide
  rw [h1]
  simp [pyFloat, h, tokFloat, DecTok.val]

theorem pyStrip_1000_ne : ¬ pyStrip "1000" = "" := by decide

theorem pyStrip_4800_ne : ¬ pyStrip "4800" = "" := by decide

/-- When the calculated_rates entry is present and nonzero, the resolution
step of lines 290-292 just returns it, touching nothing. -/
theorem resolve_rub_present (st : GlobalState) (now : ℚ) (fetch : FetchResult)
    (r : ℚ) (hr : st.calculated_rates.rub_to_kzt = some r) (hr0 : r ≠ 0) :
    resolve_rub_to_kzt st now fetch = Except.ok (r, st) := by
  simp [resolve_rub_to_kzt, hr, hr0]

theorem resolve_kzt_present (st : GlobalState) (now : ℚ) (fetch : FetchResult)
    (r : ℚ) (hr : st.calculated_rates.kzt_to_rub = some r) (hr0 : r ≠ 0) :
    resolve_kzt_to_rub st now fetch = Except.ok (r, st) := by
  simp [resolve_kzt_to_rub, hr, hr0]

/-- General behaviour of the rubles-amount handler when a nonzero rub_to_kzt
rate is already in the globals and the text parses to a positive finite
amount: complete with amount * rate, clear the session, leave the state. -/
theorem rub_handler_completes (st : GlobalState) (now : ℚ) (fetch : FetchResult)
    (r q : ℚ) (t : String)
    (hr : st.calculated_rates.rub_to_kzt = some r) (hr0 : r ≠ 0)
    (ht : ¬ pyStrip t = "")
    (hp : pyFloat (pyStrip (pyReplaceCommaDot t)) = some (PFloat.num q))
    (hq : 0 < q) :
    rub_to_kzt_amount_rub_handler st now fetch (some t)
      = (Outcome.completed (pyRound q) (pyRound (q * r)), st, SessionState.idle) := by
  have hres := resolve_rub_present st now fetch r hr hr0
  simp [rub_to_kzt_amount_rub_handler, ht, hp, hres, pleZero, hq.not_le, pmulQ, pyIntRound]

/-- General behaviour of the desired-tenge handler under the same conditions:
complete with desired / rate (the forward rate, inverse arithmetic). -/
theorem rub_div_handler_completes (st : GlobalState) (now : ℚ) (fetch : FetchResult)
    (r q : ℚ) (t : String)
    (hr : st.calculated_rates.rub_to_kzt = some r) (hr0 : r ≠ 0)
    (ht : ¬ pyStrip t = "")
    (hp : pyFloat (pyStrip (pyReplaceCommaDot t)) = some (PFloat.num q))
    (hq : 0 < q) :
    rub_to_kzt_amount_kzt_handler st now fetch (some t)
      = (Outcome.completed (pyRound (q / r)) (pyRound q), st, SessionState.idle) := by
  have hres := resolve_rub_present st now fetch r hr hr0
  simp [rub_to_kzt_amount_kzt_handler, ht, hp, hres, hr0, pleZero, hq.not_le, pdivQ, pyIntRound]

/-- When the calculated_rates entry is absent or 0.0 (both falsy in Python),
line 292 recomputes; a raise in calculate_rates propagates with its
exception class and state. -/
theorem resolve_rub_recompute (st : GlobalState) (now : ℚ) (fetch : FetchResult)
    (hf : st.calculated_rates.rub_to_kzt = none ∨ st.calculated_rates.rub_to_kzt = some 0) :
    (∀ e st', calculate_rates st now fetch = Except.error (e, st') →
      resolve_rub_to_kzt st now fetch = Except.error (e, st'))
    ∧ (∀ f i st', calculate_rates st now fetch = Except.ok ((f, i), st') →
      resolve_rub_to_kzt st now fetch = Except.ok (f, st')) := by
  rcases hf with hf | hf
  · exact ⟨fun e st' h => by simp [resolve_rub_to_kzt, hf, h],
      fun f i st' h => by simp [resolve_rub_to_kzt, hf, h]⟩
  · exact ⟨fun e st' h => by simp [resolve_rub_to_kzt, hf, h],
      fun f i st' h => by simp [resolve_rub_to_kzt, hf, h]⟩

/-- First refresh of the two-run experiment: from the empty state at time 0,
a rate request against market snapshot (90, 450) caches the snapshot and
stores the client rates 4.8 and 5.2 in the globals. -/
theorem refresh_once :
    request_rate_handler stInit 0 (FetchResult.ok (90, 450))
      = ⟨⟨some (90, 450), some 0⟩, ⟨some (24/5), some (26/5)⟩⟩ := by
  norm_num [request_rate_handler, calculate_rates, get_market_rates, stInit,
    RateCache.get, RateCache.is_valid, RateCache.set, rate_rub_to_kzt,
    rate_kzt_to_rub, base_rate, cacheDuration]

/-- Second refresh at time 21: the cached snapshot from time 0 is stale
(21 - 0 is not below 20), so the new market snapshot (100, 400) is fetched
and the globals are overwritten with the client rates 3.84 and 4.16. -/
theorem refresh_again :
    request_rate_handler ⟨⟨some (90, 450), some 0⟩, ⟨some (24/5), some (26/5)⟩⟩ 21 (FetchResult.ok (100, 400))
      = ⟨⟨some (100, 400), some 21⟩, ⟨some (96/25), some (104/25)⟩⟩ := by
  norm_num [request_rate_handler, calculate_rates, get_market_rates,
    RateCache.get, RateCache.is_valid, RateCache.set, rate_rub_to_kzt,
    rate_kzt_to_rub, base_rate, cacheDuration]

/-- Submitting 1000 rubles right after the first refresh yields 4800 tenge. -/
theorem run_low_refresh :
    (rub_to_kzt_amount_rub_handler ⟨⟨some (90, 450), some 0⟩, ⟨some (24/5), some (26/5)⟩⟩
        5 FetchResult.otherError (some "1000")).1 = Outcome.completed 1000 4800 := by
  have h := rub_handler_completes ⟨⟨some (90, 450), some 0⟩, ⟨some (24/5), some (26/5)⟩⟩
    5 FetchResult.otherError (24/5) 1000 "1000" rfl (by norm_num) pyStrip_1000_ne pyFloat_1000 (by norm_num)
  rw [h]
  norm_num [pyRound]

/-- Submitting the same 1000 rubles after the interposed second refresh
yields 3840 tenge instead. -/
theorem run_high_refresh :
    (rub_to_kzt_amount_rub_handler ⟨⟨some (100, 400), some 21⟩, ⟨some (96/25), some (104/25)⟩⟩
        25 FetchResult.otherError (some "1000")).1 = Outcome.completed 1000 3840 := by
  have h := rub_handler_completes ⟨⟨some (100, 400), some 21⟩, ⟨some (96/25), some (104/25)⟩⟩
    25 FetchResult.otherError (96/25) 1000 "1000" rfl (by norm_num) pyStrip_1000_ne pyFloat_1000 (by norm_num)
  rw [h]
  norm_num [pyRound]

/-- C2: calculate_rates derives base = kzt_per_usd / rub_per_usd (units of
the target currency per unit of the source), the forward rate base * (1 - 0.04)
and the inverse rate base * (1 + 0.04); at the market snapshot RUB/USD = 90,
KZT/USD = 450 the base cross rate is 5, the forward rate 4.8, the inverse
rate 5.2, and submitting 1000 rubles against the stored forward rate
completes with 4800 tenge. -/
theorem calculate_rates_spread_formula :
    (∀ rub_per_usd kzt_per_usd : ℚ,
        rate_rub_to_kzt rub_per_usd kzt_per_usd
          = kzt_per_usd / rub_per_usd * (1 - 4/100)
        ∧ rate_kzt_to_rub rub_per_usd kzt_per_usd
          = kzt_per_usd / rub_per_usd * (1 + 4/100))
    ∧ base_rate 90 450 = 5
    ∧ rate_rub_to_kzt 90 450 = 24/5
    ∧ rate_kzt_to_rub 90 450 = 26/5
    ∧ (rub_to_kzt_amount_rub_handler stLocked 0 FetchResult.otherError (some "1000")).1
        = Outcome.completed 1000 4800 := by
  refine ⟨fun a b => ⟨by norm_num [rate_rub_to_kzt, base_rate],
      by norm_num [rate_kzt_to_rub, base_rate]⟩,
    by norm_num [base_rate],
    by norm_num [rate_rub_to_kzt, base_rate],
    by norm_num [rate_kzt_to_rub, base_rate], ?_⟩
  have h := rub_handler_completes stLocked 0 FetchResult.otherError (24/5) 1000 "1000" rfl
    (by norm_num) pyStrip_1000_ne pyFloat_1000 (by norm_num)
  rw [h]
  norm_num [pyRound]

/-- C3: the round trip evaluated on the code at the failing input.  With the
market snapshot (90, 450) the locked pair of rates is (4.8, 5.2); submitting
1000 rubles yields 4800 tenge, and feeding those 4800 tenge to the
tenge-to-rubles handler with the same locked pair yields 24960 rubles,
because line 178 multiplies the base rate by 1.04 where the docstring on
line 166 promises 1 / base_rate * 1.04.  The result is 1000 * base^2 * 0.9984,
not the claimed 1000 * (1 - 0.04^2) = 998.4, and it is not below 1000. -/
theorem roundtrip_at_failing_input :
    rate_rub_to_kzt 90 450 = 24/5
    ∧ rate_kzt_to_rub 90 450 = 26/5
    ∧ (rub_to_kzt_amount_rub_handler stLocked 0 FetchResult.otherError (some "1000")).1
        = Outcome.completed 1000 4800
    ∧ (kzt_to_rub_amount_kzt_handler stLocked 0 FetchResult.otherError (some "4800")).1
        = Outcome.completed 4800 24960
    ∧ (1000 : ℚ) * (24/5) * (26/5) = 24960
    ∧ (1000 : ℚ) * (1 - (4/100)^2) = 4992/5
    ∧ ¬ ((24960 : ℚ) < 1000) := by
  refine ⟨by norm_num [rate_rub_to_kzt, base_rate],
    by norm_num [rate_kzt_to_rub, base_rate], ?_, ?_, by norm_num, by norm_num, by norm_num⟩
  · have h := rub_handler_completes stLocked 0 FetchResult.otherError (24/5) 1000 "1000" rfl
      (by norm_num) pyStrip_1000_ne pyFloat_1000 (by norm_num)
    rw [h]
    norm_num [pyRound]
  · have h3 : pyScan "4800" = some (NumTok.dec ⟨false, 4800, 0, 0, 0⟩) := by decide
    have h1 : pyStrip "4800" = "4800" := by decide
    have h2 : pyReplaceCommaDot "4800" = "4800" := by decide
    simp [kzt_to_rub_amount_kzt_handler, h1, h2, h3, pyFloat, tokFloat, DecTok.val,
      pleZero, resolve_kzt_to_rub, stLocked, pmulQ, pyIntRound, pyRound]
    norm_num

/-- C8 (amended): for positive base rates, forward / (1 - 0.04) and
inverse / (1 + 0.04) both equal the base cross rate exactly; moreover
forward * (1 + 0.04) = inverse * (1 - 0.04) also holds for every snapshot
(both sides equal base * 0.96 * 1.04), because the code derives both client
rates as multiples of the same base rate. -/
theorem spread_rates_proportional (rub_per_usd kzt_per_usd : ℚ)
    (h1 : 0 < rub_per_usd) (h2 : 0 < kzt_per_usd) :
    rate_rub_to_kzt rub_per_usd kzt_per_usd / (1 - 4/100)
        = base_rate rub_per_usd kzt_per_usd
    ∧ rate_kzt_to_rub rub_per_usd kzt_per_usd / (1 + 4/100)
        = base_rate rub_per_usd kzt_per_usd
    ∧ rate_rub_to_kzt rub_per_usd kzt_per_usd * (1 + 4/100)
        = rate_kzt_to_rub rub_per_usd kzt_per_usd * (1 - 4/100) := by
  unfold rate_rub_to_kzt rate_kzt_to_rub base_rate
  refine ⟨by ring, by ring, by ring⟩

/-- C8 witness: the identities instantiated at the observed snapshot (90, 450). -/
theorem spread_rates_proportional_witness :
    (0 : ℚ) < 90 ∧ (0 : ℚ) < 450
    ∧ (rate_rub_to_kzt 90 450 / (1 - 4/100) = base_rate 90 450
      ∧ rate_kzt_to_rub 90 450 / (1 + 4/100) = base_rate 90 450
      ∧ rate_rub_to_kzt 90 450 * (1 + 4/100) = rate_kzt_to_rub 90 450 * (1 - 4/100)) :=
  ⟨by norm_num, by norm_num, spread_rates_proportional 90 450 (by norm_num) (by norm_num)⟩

/-- C8 counterexample: at the snapshot (90, 450) of the spec's own scenario,
forward * (1 + spread) and inverse * (1 - spread) are equal (both 4.992),
contradicting the claim that this identity fails in general. -/
theorem spread_identity_at_observed_rates :
    rate_rub_to_kzt 90 450 * (1 + 4/100) = rate_kzt_to_rub 90 450 * (1 - 4/100)
    ∧ rate_rub_to_kzt 90 450 * (1 + 4/100) = 624/125
    ∧ rate_rub_to_kzt 90 450 * rate_kzt_to_rub 90 450 ≠ 1 := by
  norm_num [rate_rub_to_kzt, rate_kzt_to_rub, base_rate]

/-- C4: for a cache holding a snapshot stored at time t, get returns the
snapshot exactly when now - t < cache_duration; hence at t + TTL - eps it
returns the snapshot and at t + TTL + eps it returns None, for every eps > 0;
set replaces both fields unconditionally; the TTL is 20 minutes. -/
theorem rateCache_contract (c : RateCache) (d : ℚ × ℚ) (t : ℚ)
    (hc : c.cache = some d) (ht : c.cache_time = some t) :
    (∀ now : ℚ, c.get now = some d ↔ now - t < cacheDuration)
    ∧ (∀ ε : ℚ, 0 < ε → c.get (t + cacheDuration - ε) = some d)
    ∧ (∀ ε : ℚ, 0 < ε → c.get (t + cacheDuration + ε) = none)
    ∧ (∀ (c' : RateCache) (d' : ℚ × ℚ) (t' : ℚ), c'.set d' t' = ⟨some d', some t'⟩)
    ∧ cacheDuration = 20 := by
  have hval : ∀ now : ℚ, c.is_valid now = decide (now - t < cacheDuration) := by
    intro now
    unfold RateCache.is_valid
    rw [hc, ht]
  refine ⟨?_, ?_, ?_, fun c' d' t' => rfl, rfl⟩
  · intro now
    unfold RateCache.get
    rw [hval now, hc]
    by_cases h : now - t < cacheDuration
    · simp [h]
    · simp [h]
  · intro ε hε
    unfold RateCache.get
    rw [hval _, hc]
    have h : t + cacheDuration - ε - t < cacheDuration := by linarith
    simp [h]
  · intro ε hε
    unfold RateCache.get
    rw [hval _]
    have h : ¬ (t + cacheDuration + ε - t < cacheDuration) := by
      intro hcon
      linarith
    simp [h]

/-- C4 witness: the contract instantiated at a cache holding the snapshot
(90, 450) stored at time 0. -/
theorem rateCache_contract_witness :
    (⟨some (90, 450), some 0⟩ : RateCache).cache = some (90, 450)
    ∧ (⟨some (90, 450), some 0⟩ : RateCache).cache_time = some 0
    ∧ ((∀ now : ℚ,
          (⟨some (90, 450), some 0⟩ : RateCache).get now = some (90, 450)
            ↔ now - 0 < cacheDuration)
      ∧ (∀ ε : ℚ, 0 < ε →
          (⟨some (90, 450), some 0⟩ : RateCache).get (0 + cacheDuration - ε) = some (90, 450))
      ∧ (∀ ε : ℚ, 0 < ε →
          (⟨some (90, 450), some 0⟩ : RateCache).get (0 + cacheDuration + ε) = none)
      ∧ (∀ (c' : RateCache) (d' : ℚ × ℚ) (t' : ℚ), c'.set d' t' = ⟨some d', some t'⟩)
      ∧ cacheDuration = 20) :=
  ⟨rfl, rfl, rateCache_contract ⟨some (90, 450), some 0⟩ (90, 450) 0 rfl rfl⟩

/-- Global state with a freshly cached snapshot (90, 450) stored at time 0
but nothing yet in the calculated_rates globals. -/
def stNoRate : GlobalState :=
  ⟨⟨some (90, 450), some 0⟩, ⟨none, none⟩⟩

/-- C1 (amended): there is no per-session locked rate.  The amount step
reads the process-global calculated_rates dict at submission time (first
conjunct: with a nonzero stored rate r the handler completes with
amount * r, whatever r currently is), so a rate refresh between the
direction choice and the amount submission changes the numeric result: the
same session events around one interposed refresh yield 4800, around two
refreshes with a moved market yield 3840. -/
theorem rate_read_at_submission_not_locked (st : GlobalState) (now : ℚ)
    (fetch : FetchResult) (r q : ℚ) (t : String)
    (hr : st.calculated_rates.rub_to_kzt = some r) (hr0 : r ≠ 0)
    (ht : ¬ pyStrip t = "")
    (hp : pyFloat (pyStrip (pyReplaceCommaDot t)) = some (PFloat.num q))
    (hq : 0 < q) :
    rub_to_kzt_amount_rub_handler st now fetch (some t)
      = (Outcome.completed (pyRound q) (pyRound (q * r)), st, SessionState.idle)
    ∧ (rub_to_kzt_amount_rub_handler (request_rate_handler stInit 0 (FetchResult.ok (90, 450)))
        5 FetchResult.otherError (some "1000")).1 = Outcome.completed 1000 4800
    ∧ (rub_to_kzt_amount_rub_handler
        (request_rate_handler (request_rate_handler stInit 0 (FetchResult.ok (90, 450))) 21 (FetchResult.ok (100, 400)))
        25 FetchResult.otherError (some "1000")).1 = Outcome.completed 1000 3840
    ∧ Outcome.completed 1000 4800 ≠ Outcome.completed 1000 3840 := by
  refine ⟨rub_handler_completes st now fetch r q t hr hr0 ht hp hq, ?_, ?_, by decide⟩
  · rw [refresh_once]
    exact run_low_refresh
  · rw [refresh_once, refresh_again]
    exact run_high_refresh

/-- C1 witness: the amended statement instantiated at the state holding the
rate 24/5 and the input text 1000. -/
theorem rate_read_at_submission_not_locked_witness :
    stLocked.calculated_rates.rub_to_kzt = some (24/5)
    ∧ (24/5 : ℚ) ≠ 0
    ∧ ¬ pyStrip "1000" = ""
    ∧ pyFloat (pyStrip (pyReplaceCommaDot "1000")) = some (PFloat.num 1000)
    ∧ (0 : ℚ) < 1000
    ∧ (rub_to_kzt_amount_rub_handler stLocked 0 FetchResult.otherError (some "1000")
        = (Outcome.completed (pyRound 1000) (pyRound (1000 * (24/5))), stLocked, SessionState.idle)
      ∧ (rub_to_kzt_amount_rub_handler (request_rate_handler stInit 0 (FetchResult.ok (90, 450)))
          5 FetchResult.otherError (some "1000")).1 = Outcome.completed 1000 4800
      ∧ (rub_to_kzt_amount_rub_handler
          (request_rate_handler (request_rate_handler stInit 0 (FetchResult.ok (90, 450))) 21 (FetchResult.ok (100, 400)))
          25 FetchResult.otherError (some "1000")).1 = Outcome.completed 1000 3840
      ∧ Outcome.completed 1000 4800 ≠ Outcome.completed 1000 3840) :=
  ⟨rfl, by norm_num, pyStrip_1000_ne, pyFloat_1000, by norm_num,
    rate_read_at_submission_not_locked stLocked 0 FetchResult.otherError (24/5) 1000 "1000" rfl
      (by norm_num) pyStrip_1000_ne pyFloat_1000 (by norm_num)⟩

/-- C1 counterexample: two runs in which the session's own events are
identical (submit the text 1000 after the direction was chosen when the
rates came from the snapshot (90, 450)); in the second run another
rate refresh against a moved market is interposed, and the session's
numeric result changes from 4800 to 3840 — the two-run noninterference
statement of the claim is false. -/
theorem session_result_changed_by_refresh :
    (rub_to_kzt_amount_rub_handler (request_rate_handler stInit 0 (FetchResult.ok (90, 450)))
        5 FetchResult.otherError (some "1000")).1 = Outcome.completed 1000 4800
    ∧ (rub_to_kzt_amount_rub_handler
        (request_rate_handler (request_rate_handler stInit 0 (FetchResult.ok (90, 450))) 21 (FetchResult.ok (100, 400)))
        25 FetchResult.otherError (some "1000")).1 = Outcome.completed 1000 3840
    ∧ Outcome.completed 1000 4800 ≠ Outcome.completed 1000 3840 := by
  refine ⟨?_, ?_, by decide⟩
  · rw [refresh_once]
    exact run_low_refresh
  · rw [refresh_once, refresh_again]
    exact run_high_refresh

/-- C5 (amended): a missing (or 0.0, falsy) rub_to_kzt rate at
AwaitingAmount does not redirect the user to restart: the handler recomputes
the rates via calculate_rates, and the outcome follows the recomputation —
on success the conversion completes normally with the fresh forward rate; a
ValueError raise (missing API key, undecodable response, response without a
rates field) is caught by the except-ValueError clause of line 305, which
re-prompts for a number and keeps the session in AwaitingAmount; only a
non-ValueError raise (network error, timeout, zero market rate) reaches the
except-Exception clause, which clears the session with the generic error
message.  The last two conjuncts exhibit both raise outcomes concretely
from the empty state, whose stale cache forces the fetch. -/
theorem missing_rate_recomputes (st : GlobalState) (now : ℚ)
    (fetch : FetchResult) (q : ℚ) (t : String)
    (hf : st.calculated_rates.rub_to_kzt = none ∨ st.calculated_rates.rub_to_kzt = some 0)
    (ht : ¬ pyStrip t = "")
    (hp : pyFloat (pyStrip (pyReplaceCommaDot t)) = some (PFloat.num q))
    (hq : 0 < q) :
    (rub_to_kzt_amount_rub_handler st now fetch (some t)
      = match calculate_rates st now fetch with
        | Except.error (PyErrKind.valueError, st') =>
          (Outcome.promptInvalid, st', SessionState.rub_to_kzt_waiting_rub)
        | Except.error (PyErrKind.otherError, st') =>
          (Outcome.errorCleared, st', SessionState.idle)
        | Except.ok ((f, _), st') =>
          (Outcome.completed (pyRound q) (pyRound (q * f)), st', SessionState.idle))
    ∧ rub_to_kzt_amount_rub_handler stInit 25 FetchResult.valueError (some "1000")
        = (Outcome.promptInvalid, stInit, SessionState.rub_to_kzt_waiting_rub)
    ∧ rub_to_kzt_amount_rub_handler stInit 25 FetchResult.otherError (some "1000")
        = (Outcome.errorCleared, stInit, SessionState.idle) := by
  have h1000 : ¬ ((1000 : ℚ) ≤ 0) := by norm_num
  have hVE : calculate_rates stInit 25 FetchResult.valueError
      = Except.error (PyErrKind.valueError, stInit) := by
    simp [calculate_rates, get_market_rates, stInit, RateCache.get, RateCache.is_valid]
  have hOE : calculate_rates stInit 25 FetchResult.otherError
      = Except.error (PyErrKind.otherError, stInit) := by
    simp [calculate_rates, get_market_rates, stInit, RateCache.get, RateCache.is_valid]
  refine ⟨?_, ?_, ?_⟩
  · cases hcalc : calculate_rates st now fetch with
    | error p =>
      obtain ⟨e, st'⟩ := p
      have hres := (resolve_rub_recompute st now fetch hf).1 e st' hcalc
      cases e
      · simp [rub_to_kzt_amount_rub_handler, ht, hp, hres, pleZero, hq.not_le]
      · simp [rub_to_kzt_amount_rub_handler, ht, hp, hres, pleZero, hq.not_le]
    | ok p =>
      obtain ⟨⟨f, i⟩, st'⟩ := p
      have hres := (resolve_rub_recompute st now fetch hf).2 f i st' hcalc
      simp [rub_to_kzt_amount_rub_handler, ht, hp, hres, pleZero, hq.not_le,
        pmulQ, pyIntRound]
  · have hres := (resolve_rub_recompute stInit 25 FetchResult.valueError (Or.inl rfl)).1
      PyErrKind.valueError stInit hVE
    simp [rub_to_kzt_amount_rub_handler, pyStrip_1000_ne, pyFloat_1000, hres,
      pleZero, h1000]
  · have hres := (resolve_rub_recompute stInit 25 FetchResult.otherError (Or.inl rfl)).1
      PyErrKind.otherError stInit hOE
    simp [rub_to_kzt_amount_rub_handler, pyStrip_1000_ne, pyFloat_1000, hres,
      pleZero, h1000]

/-- C5 witness: the amended statement instantiated at a state with an empty
calculated_rates dict and a fresh cached snapshot, where the recomputation
succeeds from the cache. -/
theorem missing_rate_recomputes_witness :
    (stNoRate.calculated_rates.rub_to_kzt = none
      ∨ stNoRate.calculated_rates.rub_to_kzt = some 0)
    ∧ ¬ pyStrip "1000" = ""
    ∧ pyFloat (pyStrip (pyReplaceCommaDot "1000")) = some (PFloat.num 1000)
    ∧ (0 : ℚ) < 1000
    ∧ ((rub_to_kzt_amount_rub_handler stNoRate 5 FetchResult.otherError (some "1000")
        = match calculate_rates stNoRate 5 FetchResult.otherError with
          | Except.error (PyErrKind.valueError, st') =>
            (Outcome.promptInvalid, st', SessionState.rub_to_kzt_waiting_rub)
          | Except.error (PyErrKind.otherError, st') =>
            (Outcome.errorCleared, st', SessionState.idle)
          | Except.ok ((f, _), st') =>
            (Outcome.completed (pyRound 1000) (pyRound (1000 * f)), st', SessionState.idle))
      ∧ rub_to_kzt_amount_rub_handler stInit 25 FetchResult.valueError (some "1000")
          = (Outcome.promptInvalid, stInit, SessionState.rub_to_kzt_waiting_rub)
      ∧ rub_to_kzt_amount_rub_handler stInit 25 FetchResult.otherError (some "1000")
          = (Outcome.errorCleared, stInit, SessionState.idle)) :=
  ⟨Or.inl rfl, pyStrip_1000_ne, pyFloat_1000, by norm_num,
    missing_rate_recomputes stNoRate 5 FetchResult.otherError 1000 "1000" (Or.inl rfl)
      pyStrip_1000_ne pyFloat_1000 (by norm_num)⟩

/-- C5 counterexample: in the AwaitingAmount state with no stored rate but a
fresh cached snapshot, submitting 1000 produces the conversion result 4800
(and fills the globals), instead of the claimed clear-and-restart. -/
theorem missing_rate_still_converts :
    rub_to_kzt_amount_rub_handler stNoRate 5 FetchResult.otherError (some "1000")
      = (Outcome.completed 1000 4800,
        ⟨⟨some (90, 450), some 0⟩, ⟨some (24/5), some (26/5)⟩⟩, SessionState.idle)
    ∧ Outcome.completed 1000 4800 ≠ Outcome.errorCleared := by
  have hcalc : calculate_rates stNoRate 5 FetchResult.otherError
      = Except.ok ((24/5, 26/5),
        ⟨⟨some (90, 450), some 0⟩, ⟨some (24/5), some (26/5)⟩⟩) := by
    norm_num [calculate_rates, get_market_rates, stNoRate, RateCache.get,
      RateCache.is_valid, RateCache.set, rate_rub_to_kzt, rate_kzt_to_rub,
      base_rate, cacheDuration]
  have hres := (resolve_rub_recompute stNoRate 5 FetchResult.otherError
    (Or.inl rfl)).2 (24/5) (26/5) _ hcalc
  refine ⟨?_, by decide⟩
  simp [rub_to_kzt_amount_rub_handler, pyStrip_1000_ne, pyFloat_1000, hres,
    pleZero, pmulQ, pyIntRound]
  norm_num [pyRound]

/-- C7: both input modes use the same stored forward rate r: with the source
amount given the handler completes with amount * r, with the destination
amount desired it completes with desired / r (the inverse arithmetic of the
same rate, not the separate inverse rate); in particular a user asking to
receive 4800 tenge against the stored forward rate 4.8 is told to send
1000 rubles. -/
theorem result_uses_same_rate_both_modes (st : GlobalState) (now : ℚ)
    (fetch : FetchResult) (r q : ℚ) (t : String)
    (hr : st.calculated_rates.rub_to_kzt = some r) (hr0 : r ≠ 0)
    (ht : ¬ pyStrip t = "")
    (hp : pyFloat (pyStrip (pyReplaceCommaDot t)) = some (PFloat.num q))
    (hq : 0 < q) :
    rub_to_kzt_amount_rub_handler st now fetch (some t)
      = (Outcome.completed (pyRound q) (pyRound (q * r)), st, SessionState.idle)
    ∧ rub_to_kzt_amount_kzt_handler st now fetch (some t)
      = (Outcome.completed (pyRound (q / r)) (pyRound q), st, SessionState.idle)
    ∧ (rub_to_kzt_amount_kzt_handler stLocked 0 FetchResult.otherError (some "4800")).1
      = Outcome.completed 1000 4800 := by
  refine ⟨rub_handler_completes st now fetch r q t hr hr0 ht hp hq,
    rub_div_handler_completes st now fetch r q t hr hr0 ht hp hq, ?_⟩
  have h := rub_div_handler_completes stLocked 0 FetchResult.otherError (24/5) 4800 "4800" rfl
    (by norm_num) pyStrip_4800_ne pyFloat_4800 (by norm_num)
  rw [h]
  norm_num [pyRound]

/-- C7 witness: the statement instantiated at the stored forward rate 24/5
and the input text 1000. -/
theorem result_uses_same_rate_both_modes_witness :
    stLocked.calculated_rates.rub_to_kzt = some (24/5)
    ∧ (24/5 : ℚ) ≠ 0
    ∧ ¬ pyStrip "1000" = ""
    ∧ pyFloat (pyStrip (pyReplaceCommaDot "1000")) = some (PFloat.num 1000)
    ∧ (0 : ℚ) < 1000
    ∧ (rub_to_kzt_amount_rub_handler stLocked 0 FetchResult.otherError (some "1000")
        = (Outcome.completed (pyRound 1000) (pyRound (1000 * (24/5))), stLocked, SessionState.idle)
      ∧ rub_to_kzt_amount_kzt_handler stLocked 0 FetchResult.otherError (some "1000")
        = (Outcome.completed (pyRound (1000 / (24/5))) (pyRound 1000), stLocked, SessionState.idle)
      ∧ (rub_to_kzt_amount_kzt_handler stLocked 0 FetchResult.otherError (some "4800")).1
        = Outcome.completed 1000 4800) :=
  ⟨rfl, by norm_num, pyStrip_1000_ne, pyFloat_1000, by norm_num,
    result_uses_same_rate_both_modes stLocked 0 FetchResult.otherError (24/5) 1000 "1000" rfl
      (by norm_num) pyStrip_1000_ne pyFloat_1000 (by norm_num)⟩

/-- C6: amount parsing accepts a dot or a comma as fractional separator
after stripping whitespace ("1000", "1000.50" and "1000,50" all parse to
positive amounts), while "abc", "-5", "0" and "" each produce a retry
prompt and leave the session in its awaiting state with the global state
untouched. -/
theorem amount_validation_behaviour (st : GlobalState) (now : ℚ)
    (fetch : FetchResult) :
    pyFloat (pyStrip (pyReplaceCommaDot "1000")) = some (PFloat.num 1000)
    ∧ pyFloat (pyStrip (pyReplaceCommaDot "1000.50")) = some (PFloat.num (2001/2))
    ∧ pyFloat (pyStrip (pyReplaceCommaDot "1000,50")) = some (PFloat.num (2001/2))
    ∧ (0 : ℚ) < 1000 ∧ (0 : ℚ) < 2001/2
    ∧ rub_to_kzt_amount_rub_handler st now fetch (some "abc")
        = (Outcome.promptInvalid, st, SessionState.rub_to_kzt_waiting_rub)
    ∧ rub_to_kzt_amount_rub_handler st now fetch (some "-5")
        = (Outcome.promptNonPositive, st, SessionState.rub_to_kzt_waiting_rub)
    ∧ rub_to_kzt_amount_rub_handler st now fetch (some "0")
        = (Outcome.promptNonPositive, st, SessionState.rub_to_kzt_waiting_rub)
    ∧ rub_to_kzt_amount_rub_handler st now fetch (some "")
        = (Outcome.promptEmpty, st, SessionState.rub_to_kzt_waiting_rub) := by
  have hdot : pyScan "1000.50" = some (NumTok.dec ⟨false, 1000, 50, 2, 0⟩) := by decide
  have hdot1 : pyStrip (pyReplaceCommaDot "1000.50") = "1000.50" := by decide
  have hcomma : pyStrip (pyReplaceCommaDot "1000,50") = "1000.50" := by decide
  have hminus : pyScan "-5" = some (NumTok.dec ⟨true, 5, 0, 0, 0⟩) := by decide
  have hminus1 : pyStrip "-5" = "-5" := by decide
  have hminus2 : pyReplaceCommaDot "-5" = "-5" := by decide
  have hzero : pyScan "0" = some (NumTok.dec ⟨false, 0, 0, 0, 0⟩) := by decide
  have hzero1 : pyStrip "0" = "0" := by decide
  have hzero2 : pyReplaceCommaDot "0" = "0" := by decide
  have habc : pyScan "abc" = none := by decide
  have habc1 : pyStrip "abc" = "abc" := by decide
  have habc2 : pyReplaceCommaDot "abc" = "abc" := by decide
  refine ⟨pyFloat_1000, ?_, ?_, by norm_num, by norm_num, ?_, ?_, ?_, ?_⟩
  · rw [hdot1]
    simp [pyFloat, hdot, tokFloat, DecTok.val]
    norm_num
  · rw [hcomma]
    simp [pyFloat, hdot, tokFloat, DecTok.val]
    norm_num
  · simp [rub_to_kzt_amount_rub_handler, habc1, habc2, habc, pyFloat]
  · simp [rub_to_kzt_amount_rub_handler, hminus1, hminus2, hminus, pyFloat,
      tokFloat, DecTok.val, pleZero]
  · simp [rub_to_kzt_amount_rub_handler, hzero1, hzero2, hzero, pyFloat,
      tokFloat, DecTok.val, pleZero]
  · have hemp : pyStrip "" = "" := by decide
    simp [rub_to_kzt_amount_rub_handler, hemp]

/-- C9 (amended): intermediate computation is exact and only the rendered
values are rounded to whole units, but the rounding Python round performs is
half-to-even, not half-up: a fractional part of exactly one half rounds to
the nearest even integer, so a session whose forward rate is exactly 1
(derived from the market snapshot (96, 100)) displays the amount 2.5 as 2,
where the half-up rule of the spec would display 3. -/
theorem display_rounding_is_half_even :
    (∀ n : ℤ, pyRound ((n : ℚ) + 1/2) = if n % 2 = 0 then n else n + 1)
    ∧ (∀ q : ℚ, pyIntRound (PFloat.num q) = RenderResult.ok (pyRound q))
    ∧ request_rate_handler stInit 0 (FetchResult.ok (96, 100)) = stUnit
    ∧ (rub_to_kzt_amount_rub_handler stUnit 0 FetchResult.otherError (some "2.5")).1
        = Outcome.completed 2 2
    ∧ pyRound (5/2) = 2
    ∧ specHalfUp (5/2) = 3 := by
  refine ⟨?_, fun q => rfl, ?_, ?_, by norm_num [pyRound], by norm_num [specHalfUp]⟩
  · intro n
    have hf : ⌊(n : ℚ) + 1/2⌋ = n := by
      rw [add_comm, Int.floor_add_int]
      norm_num
    unfold pyRound
    rw [hf]
    have h2 : (n : ℚ) + 1/2 - (n : ℚ) = 1/2 := by ring
    rw [h2]
    norm_num
  · norm_num [request_rate_handler, calculate_rates, get_market_rates, stInit,
      stUnit, RateCache.get, RateCache.is_valid, RateCache.set, rate_rub_to_kzt,
      rate_kzt_to_rub, base_rate, cacheDuration]
  · have h3 : pyScan "2.5" = some (NumTok.dec ⟨false, 2, 5, 1, 0⟩) := by decide
    have h1 : pyStrip "2.5" = "2.5" := by decide
    have h2 : pyReplaceCommaDot "2.5" = "2.5" := by decide
    simp [rub_to_kzt_amount_rub_handler, h1, h2, h3, pyFloat, tokFloat, DecTok.val,
      pleZero, resolve_rub_to_kzt, stUnit, pmulQ, pyIntRound, pyRound]
    norm_num [Int.fract]

/-- C9 counterexample: a displayed value whose exact result has fractional
part exactly one half is rendered as 2 (round half to even), not as 3
(round half away from zero) as the claim requires. -/
theorem display_rounds_to_even_not_up :
    (rub_to_kzt_amount_rub_handler stUnit 0 FetchResult.otherError (some "2.5")).1
      = Outcome.completed 2 2
    ∧ specHalfUp (5/2) = 3
    ∧ Outcome.completed 2 2 ≠ Outcome.completed 3 3 := by
  refine ⟨?_, by norm_num [specHalfUp], by decide⟩
  have h3 : pyScan "2.5" = some (NumTok.dec ⟨false, 2, 5, 1, 0⟩) := by decide
  have h1 : pyStrip "2.5" = "2.5" := by decide
  have h2 : pyReplaceCommaDot "2.5" = "2.5" := by decide
  simp [rub_to_kzt_amount_rub_handler, h1, h2, h3, pyFloat, tokFloat, DecTok.val,
    pleZero, resolve_rub_to_kzt, stUnit, pmulQ, pyIntRound, pyRound]
  norm_num [Int.fract]

/-- C10 (amended): float() does accept nan and inf and the non-positive
check does not fire on them (NaN and +infinity compare false against 0), so
validation indeed fails to reject them; but the session does not complete:
rendering the result raises — ValueError for NaN, caught by the
invalid-number retry branch, leaving the session in AwaitingAmount; and
OverflowError for infinity, caught by the generic except branch, which
clears the session with an error message. -/
theorem nan_inf_reach_render_step :
    pyFloat "nan" = some PFloat.nan
    ∧ pleZero PFloat.nan = false
    ∧ pyFloat "inf" = some PFloat.inf
    ∧ pleZero PFloat.inf = false
    ∧ pmulQ PFloat.nan (24/5) = PFloat.nan
    ∧ pmulQ PFloat.inf (24/5) = PFloat.inf
    ∧ pyIntRound PFloat.nan = RenderResult.valueError
    ∧ pyIntRound PFloat.inf = RenderResult.overflowError
    ∧ rub_to_kzt_amount_rub_handler stLocked 0 FetchResult.otherError (some "nan")
        = (Outcome.promptInvalid, stLocked, SessionState.rub_to_kzt_waiting_rub)
    ∧ rub_to_kzt_amount_rub_handler stLocked 0 FetchResult.otherError (some "inf")
        = (Outcome.errorCleared, stLocked, SessionState.idle) := by
  have hnan : pyScan "nan" = some NumTok.nan := by decide
  have hnan1 : pyStrip "nan" = "nan" := by decide
  have hnan2 : pyReplaceCommaDot "nan" = "nan" := by decide
  have hinf : pyScan "inf" = some (NumTok.inf false) := by decide
  have hinf1 : pyStrip "inf" = "inf" := by decide
  have hinf2 : pyReplaceCommaDot "inf" = "inf" := by decide
  refine ⟨by simp [pyFloat, hnan, tokFloat], rfl,
    by simp [pyFloat, hinf, tokFloat], rfl,
    rfl, by norm_num [pmulQ], rfl, rfl, ?_, ?_⟩
  · simp [rub_to_kzt_amount_rub_handler, hnan1, hnan2, hnan, pyFloat, tokFloat,
      pleZero, resolve_rub_to_kzt, stLocked, pmulQ, pyIntRound]
  · simp [rub_to_kzt_amount_rub_handler, hinf1, hinf2, hinf, pyFloat, tokFloat,
      pleZero, resolve_rub_to_kzt, stLocked, pmulQ, pyIntRound]

/-- C10 counterexample: submitting the text nan does not advance the session
to a completed conversion: the handler answers with the invalid-number retry
prompt (a ValidationError message) and the session stays in AwaitingAmount. -/
theorem nan_input_stays_awaiting :
    (rub_to_kzt_amount_rub_handler stLocked 0 FetchResult.otherError (some "nan")).1
      = Outcome.promptInvalid
    ∧ (rub_to_kzt_amount_rub_handler stLocked 0 FetchResult.otherError (some "nan")).2.2
      = SessionState.rub_to_kzt_waiting_rub
    ∧ SessionState.rub_to_kzt_waiting_rub ≠ SessionState.idle := by
  have hnan : pyScan "nan" = some NumTok.nan := by decide
  have hnan1 : pyStrip "nan" = "nan" := by decide
  have hnan2 : pyReplaceCommaDot "nan" = "nan" := by decide
  refine ⟨?_, ?_, by decide⟩
  · simp [rub_to_kzt_amount_rub_handler, hnan1, hnan2, hnan, pyFloat, tokFloat,
      pleZero, resolve_rub_to_kzt, stLocked, pmulQ, pyIntRound]
  · simp [rub_to_kzt_amount_rub_handler, hnan1, hnan2, hnan, pyFloat, tokFloat,
      pleZero, resolve_rub_to_kzt, stLocked, pmulQ, pyIntRound]
